import Mathlib

/-!
Shallow embedding of `fla/layers/hgrn.py` (class `HGRNAttention`): the
HGRN gated-linear-recurrence layer facade. Tensors are modelled as a shape
together with a total data function from multi-indices to real numbers;
float arithmetic is idealised as real arithmetic. External collaborators
(the linear projections, short convolutions, the two recurrence kernels and
the gated norm, all imported from other modules of the repository) are kept
abstract as fields of an `Externals` record; `forward` additionally records
the recurrence-engine invocation it makes, so that dataflow properties can
be stated about what is actually fed to the engine.
-/

namespace HGRN

/-- A tensor: a shape (list of dimension sizes, Python `t.shape`) and a total
elementwise data function from multi-indices to reals. Broadcast arguments
(such as `lower_bound`) are modelled as tensors read at the full index. -/
structure Tensor where
  shape : List ℕ
  data : List ℕ → ℝ

/-- Elementwise map, preserving the shape. -/
def Tensor.map (f : ℝ → ℝ) (t : Tensor) : Tensor :=
  ⟨t.shape, fun idx => f (t.data idx)⟩

/-- `t.shape[k]` for a nonnegative Python index `k` (0 when out of range). -/
def Tensor.size (t : Tensor) (k : ℕ) : ℕ := t.shape.getD k 0

/-- The logistic function `sigmoid x = 1 / (1 + exp (-x))`. -/
noncomputable def sigmoid (x : ℝ) : ℝ := 1 / (1 + Real.exp (-x))

/-- Mathematical value of `torch.nn.functional.logsigmoid` (line 127):
the log of the logistic function. -/
noncomputable def logsigmoid (x : ℝ) : ℝ := Real.log (sigmoid x)

/-- Modelled from the spec: the gated-nonlinearity combinator `swiglu`
imported from `fla.modules.activations` (not under `src/`). Per the spec it
is a smooth gated linear unit `swiglu(x, y)` whose first argument passes
through a sigmoid-weighted (swish) nonlinearity and whose second argument is
the multiplicative gate value: `swiglu x y = x * sigmoid x * y`. It is
division-free and defined for all reals. -/
noncomputable def swiglu (x y : ℝ) : ℝ := x * sigmoid x * y

/-- Elementwise lower-bound composition of line 130:
`torch.logaddexp(lower_bound.log(), torch.log1p(-lower_bound) + f)`.
For `lb ∈ [0,1)` this equals `log (lb + (1 - lb) * exp f)` in the extended
real semantics of the float code (where `log 0 = -∞` and `exp (-∞) = 0`,
covering `lb = 0`); we embed that closed form, which is well defined on ℝ. -/
noncomputable def gateFloor (lb f : ℝ) : ℝ :=
  Real.log (lb + (1 - lb) * Real.exp f)

/-- Gate composer, lines 127-130: `f = F.logsigmoid(f)`, then, when a lower
bound is supplied and `self.layer_idx > 0`, the floor composition. -/
noncomputable def composedLogDecay (lower_bound : Option Tensor) (layer_idx : ℕ)
    (f : Tensor) : Tensor :=
  let fls := f.map logsigmoid
  match lower_bound with
  | some lb =>
      if 0 < layer_idx then ⟨fls.shape, fun idx => gateFloor (lb.data idx) (fls.data idx)⟩
      else fls
  | none => fls

/-- Input activator, line 131: `i = swiglu(i, 1 - f.exp())`. -/
noncomputable def effectiveInput (i f : Tensor) : Tensor :=
  ⟨i.shape, fun idx => swiglu (i.data idx) (1 - Real.exp (f.data idx))⟩

/-- Python slice `m[:, -t:]` of a 2-D mask: keep the trailing `t` columns. -/
def sliceLastTime (m : Tensor) (t : ℕ) : Tensor :=
  ⟨[m.shape.getD 0 0, t],
   fun idx => m.data [idx.getD 0 0, m.shape.getD 1 0 - t + idx.getD 1 0]⟩

/-- Line 135: `i = i.mul_(attention_mask[:, -i.shape[-2]:, None])` — the mask,
trimmed to the trailing time window of `i`, multiplies `i` elementwise with
broadcast over the channel dimension. -/
def applyPadMask (i m : Tensor) : Tensor :=
  let t := i.shape.getD (i.shape.length - 2) 0
  ⟨i.shape, fun idx => i.data idx * (sliceLastTime m t).data [idx.getD 0 0, idx.getD 1 0]⟩

/-- Modelled from the spec: one per-layer entry of the external cache object
(`fla.models.utils.Cache`, not under `src/`): it holds the last recurrent
state and (optionally) the pair of convolution states. -/
structure CacheEntry where
  recurrent_state : Option Tensor
  conv_state : Option (Option Tensor × Option Tensor)

/-- Modelled from the spec: the external cache object (`fla.models.utils.Cache`,
not under `src/`), indexable by layer index, exposing a length query. Besides
the per-layer entries it keeps the log of `(layer_idx, offset)` pairs recorded
by `update`, since per the spec `update` "records how many time steps were
consumed" without this layer interpreting that value. -/
structure Cache where
  entries : List CacheEntry
  offsets : List (ℕ × ℕ)

/-- Modelled from the spec: `Cache.update(recurrent_state, conv_state,
layer_idx, offset)` upserts the entry for `layer_idx` and records the
consumed-length value `offset`. -/
def Cache.update (c : Cache) (recurrent_state : Option Tensor)
    (conv_state : Option (Option Tensor × Option Tensor))
    (layer_idx : ℕ) (offset : ℕ) : Cache :=
  { entries :=
      if layer_idx < c.entries.length then
        c.entries.set layer_idx ⟨recurrent_state, conv_state⟩
      else c.entries ++ [⟨recurrent_state, conv_state⟩],
    offsets := c.offsets ++ [(layer_idx, offset)] }

/-- The external collaborators of the layer (projections, short convolutions,
the two recurrence kernels, the gated norm), all imported from other modules
of the repository and kept abstract. Convolutions follow the call shape of
lines 109-122: `(x, mask, cache, output_final_state, cu_seqlens) ↦
(y, new_conv_state)`; `chunk_hgrn` (lines 141-146) takes no `cu_seqlens`. -/
structure Externals where
  i_proj : Tensor → Tensor
  f_proj : Tensor → Tensor
  g_proj : Tensor → Tensor
  o_proj : Tensor → Tensor
  i_conv1d : Tensor → Option Tensor → Option Tensor → Bool → Option (List ℕ) → Tensor × Option Tensor
  f_conv1d : Tensor → Option Tensor → Option Tensor → Bool → Option (List ℕ) → Tensor × Option Tensor
  chunk_hgrn : Tensor → Tensor → Option Tensor → Bool → Tensor × Option Tensor
  fused_recurrent_hgrn : Tensor → Tensor → Option Tensor → Bool → Option (List ℕ) → Tensor × Option Tensor
  g_norm : Tensor → Tensor → Tensor

/-- Constructor arguments of `HGRNAttention.__init__` that the claims touch. -/
structure Config where
  mode : String
  hidden_size : ℕ
  expand_ratio : ℕ
  use_short_conv : Bool
  conv_size : ℕ
  layer_idx : ℕ

/-- Line 43: `self.input_dim = int(hidden_size * expand_ratio)`. -/
def inputDim (cfg : Config) : ℕ := cfg.hidden_size * cfg.expand_ratio

/-- `HGRNAttention.__init__`, lines 26-51: stores the configuration and
asserts `mode in ['chunk', 'fused_recurrent']` with message
"Not supported mode `{mode}`." (line 51); the assertion failure is modelled
as an `Except.error`. -/
def initHGRN (mode : String) (hidden_size expand_ratio : ℕ)
    (use_short_conv : Bool) (conv_size layer_idx : ℕ) : Except String Config :=
  if mode = "chunk" ∨ mode = "fused_recurrent" then
    Except.ok ⟨mode, hidden_size, expand_ratio, use_short_conv, conv_size, layer_idx⟩
  else
    Except.error ("Not supported mode `" ++ mode ++ "`.")

/-- Line 97: `mode = 'fused_recurrent' if not self.training and
hidden_states.shape[1] <= 64 else self.mode`. -/
def selectMode (config_mode : String) (training : Bool) (seq_len : ℕ) : String :=
  if training = false ∧ seq_len ≤ 64 then "fused_recurrent" else config_mode

/-- Lines 99-101: `last_state = past_key_values[self.layer_idx]` when a cache
object was supplied and `len(past_key_values) > self.layer_idx`, else `None`. -/
def lastStateOf (past_key_values : Option Cache) (cfg : Config) : Option CacheEntry :=
  past_key_values.bind (fun c => c.entries.get? cfg.layer_idx)

/-- Lines 104-125: the projection stage of the two branches, with the short
convolutions applied when `use_short_conv`, reading the convolution states
from the last cache entry and the mask trimmed to the last
`hidden_states.shape[1]` columns (line 108). Returns
`((i, conv_state_i), (f, conv_state_f))`. -/
def convBranch (ext : Externals) (cfg : Config) (hidden_states : Tensor)
    (attention_mask : Option Tensor) (last_state : Option CacheEntry)
    (use_cache : Bool) (cu_seqlens : Option (List ℕ)) :
    (Tensor × Option Tensor) × (Tensor × Option Tensor) :=
  if cfg.use_short_conv then
    let cs : Option Tensor × Option Tensor :=
      match last_state with
      | some ls => ls.conv_state.getD (none, none)
      | none => (none, none)
    let conv_mask := attention_mask.map (fun m => sliceLastTime m (hidden_states.shape.getD 1 0))
    (ext.i_conv1d (ext.i_proj hidden_states) conv_mask cs.1 use_cache cu_seqlens,
     ext.f_conv1d (ext.f_proj hidden_states) conv_mask cs.2 use_cache cu_seqlens)
  else
    ((ext.i_proj hidden_states, none), (ext.f_proj hidden_states, none))

/-- Record of the one recurrence-engine invocation a forward call makes,
mirroring the keyword arguments of lines 141-154. -/
structure EngineCall where
  mode : String
  x : Tensor
  g : Tensor
  initial_state : Option Tensor
  output_final_state : Bool
  cu_seqlens : Option (List ℕ)

/-- Result of a forward call: the output (or the raised error), the state of
the externally owned cache when control returns, and the recurrence-engine
invocation made, if any. -/
structure ForwardOut where
  result : Except String Tensor
  cache : Option Cache
  engine : Option EngineCall

/-- Message of the mask-shape assertion, lines 90-94. -/
def maskAssertMsg : String :=
  "Expected attention_mask as a 0-1 matrix with shape [batch_size, seq_len] " ++
  "for padding purposes (0 indicating padding). " ++
  "Arbitrary attention masks of shape [batch_size, seq_len, seq_len] are not allowed."

/-- Lines 158-169: the cache update (when a cache object was supplied) with
`offset = i.shape[2]`, followed by the gated norm and output projection. -/
noncomputable def finishForward (ext : Externals) (cfg : Config)
    (hidden_states : Tensor) (past_key_values : Option Cache)
    (o : Tensor) (recurrent_state : Option Tensor)
    (conv_state_i conv_state_f : Option Tensor) (i : Tensor)
    (ec : EngineCall) : ForwardOut :=
  let pkv :=
    past_key_values.map (fun c =>
      c.update recurrent_state
        (if cfg.use_short_conv then some (conv_state_i, conv_state_f) else none)
        cfg.layer_idx (i.shape.getD 2 0))
  ⟨Except.ok (ext.o_proj (ext.g_norm o (ext.g_proj hidden_states))), pkv, some ec⟩

/-- Lines 96-169: the body of `HGRNAttention.forward` after the mask-shape
assertion: mode selection, cache read, projections/convolutions, gate
composition, input activation, padding-mask application, dispatch to the
recurrence engine, and cache write. -/
noncomputable def forwardBody (ext : Externals) (cfg : Config) (training : Bool)
    (hidden_states : Tensor) (attention_mask : Option Tensor)
    (past_key_values : Option Cache) (use_cache : Bool)
    (lower_bound : Option Tensor) (cu_seqlens : Option (List ℕ)) : ForwardOut :=
  let mode := selectMode cfg.mode training (hidden_states.shape.getD 1 0)
  let last_state := lastStateOf past_key_values cfg
  let br := convBranch ext cfg hidden_states attention_mask last_state use_cache cu_seqlens
  let f := composedLogDecay lower_bound cfg.layer_idx br.2.1
  let i1 := effectiveInput br.1.1 f
  let i :=
    match attention_mask with
    | some m => applyPadMask i1 m
    | none => i1
  let recurrent_state := last_state.bind (fun ls => ls.recurrent_state)
  if mode = "chunk" then
    if cu_seqlens.isSome then
      ⟨Except.error "Chunk mode does not support variable-length sequences.",
       past_key_values, none⟩
    else
      let or := ext.chunk_hgrn i f recurrent_state use_cache
      finishForward ext cfg hidden_states past_key_values or.1 or.2 br.1.2 br.2.2 i
        ⟨"chunk", i, f, recurrent_state, use_cache, none⟩
  else if mode = "fused_recurrent" then
    let or := ext.fused_recurrent_hgrn i f recurrent_state use_cache cu_seqlens
    finishForward ext cfg hidden_states past_key_values or.1 or.2 br.1.2 br.2.2 i
      ⟨"fused_recurrent", i, f, recurrent_state, use_cache, cu_seqlens⟩
  else
    ⟨Except.error ("Not supported mode `" ++ mode ++ "`."), past_key_values, none⟩

/-- `HGRNAttention.forward`, lines 79-169: the mask-shape assertion of lines
89-94 guards the body. -/
noncomputable def forward (ext : Externals) (cfg : Config) (training : Bool)
    (hidden_states : Tensor) (attention_mask : Option Tensor)
    (past_key_values : Option Cache) (use_cache : Bool)
    (lower_bound : Option Tensor) (cu_seqlens : Option (List ℕ)) : ForwardOut :=
  match attention_mask with
  | some m =>
      if m.shape.length = 2 then
        forwardBody ext cfg training hidden_states attention_mask past_key_values
          use_cache lower_bound cu_seqlens
      else ⟨Except.error maskAssertMsg, past_key_values, none⟩
  | none =>
      forwardBody ext cfg training hidden_states attention_mask past_key_values
        use_cache lower_bound cu_seqlens

/-- `HGRNAttention.state_size`, lines 171-176: starts from `hidden_size` and
adds `module.state_size` for every `ShortConvolution` child; when
`use_short_conv` the children include the two convolutions `f_conv1d` and
`i_conv1d`, each constructed (lines 59-70) with `hidden_size = input_dim` and
`kernel_size = conv_size`. `ShortConvolution.state_size` is external (not
under `src/`), so it is an abstract function of those two constructor
arguments. -/
def state_size (cfg : Config) (conv_state_size : ℕ → ℕ → ℕ) : ℕ :=
  cfg.hidden_size +
    (if cfg.use_short_conv then
      conv_state_size (inputDim cfg) cfg.conv_size +
        conv_state_size (inputDim cfg) cfg.conv_size
     else 0)

/-- A concrete instance of the external collaborators, used to evaluate the
layer at concrete inputs: the input projection maps to a constant-1 tensor of
shape `[batch, time, 3]`, the forget projection to a constant-0 tensor of the
same shape, the convolutions and recurrence kernels pass their input through,
and the norm and remaining projections are the identity. -/
noncomputable def extTriv : Externals :=
  ⟨fun t => ⟨[t.shape.getD 0 0, t.shape.getD 1 0, 3], fun _ => 1⟩,
   fun t => ⟨[t.shape.getD 0 0, t.shape.getD 1 0, 3], fun _ => 0⟩,
   fun t => t,
   fun t => t,
   fun x _ c _ _ => (x, c),
   fun x _ c _ _ => (x, c),
   fun x _ _ _ => (x, none),
   fun x _ _ _ _ => (x, none),
   fun x _ => x⟩

/-- A batch of 1 sequence of 2 time steps over 3 channels, all zeros. -/
def hs123 : Tensor := ⟨[1, 2, 3], fun _ => 0⟩

/-- A `fused_recurrent`-configured layer: hidden size 3, expand ratio 1,
no short convolution, layer index 0. -/
def cfgF : Config := ⟨"fused_recurrent", 3, 1, false, 4, 0⟩

/-- A `chunk`-configured layer: hidden size 3, expand ratio 1, no short
convolution, layer index 0. -/
def cfgC : Config := ⟨"chunk", 3, 1, false, 4, 0⟩

/-- An all-zero (fully padded) 2-D mask for a batch of 1 and 2 time steps. -/
def mask0 : Tensor := ⟨[1, 2], fun _ => 0⟩

/-! ### Helper lemmas on the scalar gate functions -/

lemma sigmoid_pos (x : ℝ) : 0 < sigmoid x := by
  unfold sigmoid
  positivity

lemma sigmoid_lt_one (x : ℝ) : sigmoid x < 1 := by
  unfold sigmoid
  rw [div_lt_one (by positivity)]
  linarith [Real.exp_pos (-x)]

lemma exp_logsigmoid (x : ℝ) : Real.exp (logsigmoid x) = sigmoid x :=
  Real.exp_log (sigmoid_pos x)

lemma gateFloor_arg_pos {lb : ℝ} (h0 : 0 ≤ lb) (h1 : lb < 1) (f : ℝ) :
    0 < lb + (1 - lb) * Real.exp f := by
  nlinarith [Real.exp_pos f]

lemma exp_gateFloor {lb : ℝ} (h0 : 0 ≤ lb) (h1 : lb < 1) (f : ℝ) :
    Real.exp (gateFloor lb f) = lb + (1 - lb) * Real.exp f :=
  Real.exp_log (gateFloor_arg_pos h0 h1 f)

/-! ### Claim theorems -/

/-- C2: for every forward call, the composed log-decay `f` of lines 127-130
satisfies `exp f ∈ (0,1)` elementwise; when a lower bound `lb` (with entries
in `[0,1)`) is supplied and the layer index is positive, additionally
`exp f ≥ lb` elementwise; and a layer with index 0 never applies the floor —
its decay is the plain log-sigmoid of the raw forget logits. -/
theorem composed_decay_floor_invariant (lower_bound : Option Tensor)
    (layer_idx : ℕ) (fRaw : Tensor) (idx : List ℕ)
    (hlb : ∀ lb, lower_bound = some lb → 0 ≤ lb.data idx ∧ lb.data idx < 1) :
    Real.exp ((composedLogDecay lower_bound layer_idx fRaw).data idx) ∈ Set.Ioo (0 : ℝ) 1
    ∧ (∀ lb, lower_bound = some lb → 0 < layer_idx →
        lb.data idx ≤ Real.exp ((composedLogDecay lower_bound layer_idx fRaw).data idx))
    ∧ composedLogDecay lower_bound 0 fRaw = fRaw.map logsigmoid := by
  have hs0 := sigmoid_pos (fRaw.data idx)
  have hs1 := sigmoid_lt_one (fRaw.data idx)
  cases lower_bound with
  | none =>
      refine ⟨?_, ?_, rfl⟩
      · simp only [composedLogDecay, Tensor.map, exp_logsigmoid]
        exact ⟨hs0, hs1⟩
      · intro lb h
        exact absurd h (by simp)
  | some lb =>
      obtain ⟨h0, h1⟩ := hlb lb rfl
      cases layer_idx with
      | zero =>
          refine ⟨?_, ?_, ?_⟩
          · simp only [composedLogDecay, Tensor.map, lt_irrefl, if_false, exp_logsigmoid]
            exact ⟨hs0, hs1⟩
          · intro lb' h hpos
            exact absurd hpos (by simp)
          · simp [composedLogDecay]
      | succ k =>
          have hexp : Real.exp ((composedLogDecay (some lb) (k + 1) fRaw).data idx)
              = lb.data idx + (1 - lb.data idx) * sigmoid (fRaw.data idx) := by
            simp only [composedLogDecay, Tensor.map, Nat.succ_pos, if_true]
            rw [exp_gateFloor h0 h1, exp_logsigmoid]
          refine ⟨?_, ?_, ?_⟩
          · rw [hexp]
            constructor
            · nlinarith
            · nlinarith
          · intro lb' h hpos
            rw [Option.some.injEq] at h
            subst h
            rw [hexp]
            nlinarith
          · simp [composedLogDecay]

/-- Witness for C2 at a concrete input: lower bound 1/2, layer index 1, raw
forget logit 0. -/
theorem composed_decay_floor_invariant_witness :
    Real.exp ((composedLogDecay (some ⟨[1], fun _ => 1/2⟩) 1 ⟨[1], fun _ => 0⟩).data [0])
        ∈ Set.Ioo (0 : ℝ) 1
    ∧ (∀ lb, some (⟨[1], fun _ => 1/2⟩ : Tensor) = some lb → 0 < 1 →
        lb.data [0] ≤ Real.exp ((composedLogDecay (some ⟨[1], fun _ => 1/2⟩) 1 ⟨[1], fun _ => 0⟩).data [0]))
    ∧ composedLogDecay (some ⟨[1], fun _ => 1/2⟩) 0 ⟨[1], fun _ => 0⟩
        = Tensor.map logsigmoid ⟨[1], fun _ => 0⟩ :=
  composed_decay_floor_invariant (some ⟨[1], fun _ => 1/2⟩) 1 ⟨[1], fun _ => 0⟩ [0]
    (by intro lb h; rw [Option.some.injEq] at h; subst h; norm_num)

/-- C4 counterexample: when the configured mode is itself `fused_recurrent`,
the sequential strategy is selected in training mode at sequence length 100,
even though `not training ∧ len ≤ 64` is false — so "selected if and only if
not training and length ≤ 64" fails. -/
theorem mode_selection_claim_counterexample :
    ¬((selectMode "fused_recurrent" true 100 = "fused_recurrent")
        ↔ (true = false ∧ (100 : ℕ) ≤ 64)) := by
  decide

/-- C4 (amended): `fused_recurrent` is selected whenever the module is not in
training mode and the sequence length is at most 64; in every other case the
configured mode of the layer is used (which may itself be `fused_recurrent`). -/
theorem mode_selection_policy (config_mode : String) (training : Bool) (seq_len : ℕ) :
    (training = false ∧ seq_len ≤ 64 →
        selectMode config_mode training seq_len = "fused_recurrent")
    ∧ (¬(training = false ∧ seq_len ≤ 64) →
        selectMode config_mode training seq_len = config_mode) := by
  constructor <;> intro h <;> simp [selectMode, h]

/-- Witness for C4 (amended) at concrete inputs on both sides of the policy. -/
theorem mode_selection_policy_witness :
    ((false = false ∧ (10 : ℕ) ≤ 64) ∧ selectMode "chunk" false 10 = "fused_recurrent")
    ∧ (¬(true = false ∧ (100 : ℕ) ≤ 64) ∧ selectMode "chunk" true 100 = "chunk") :=
  ⟨⟨by decide, (mode_selection_policy "chunk" false 10).1 (by decide)⟩,
   ⟨by decide, (mode_selection_policy "chunk" true 100).2 (by decide)⟩⟩

/-- C10: `state_size` returns `hidden_size` plus the `state_size` of each
`ShortConvolution` child (two when `use_short_conv`, none otherwise); without
the convolutions it equals `hidden_size` for every `expand_ratio` — even
though the recurrent state actually carried has
`input_dim = hidden_size * expand_ratio` channels. -/
theorem state_size_ignores_expand_ratio (cfg : Config) (css : ℕ → ℕ → ℕ) :
    state_size cfg css = cfg.hidden_size +
      (if cfg.use_short_conv then
        css (inputDim cfg) cfg.conv_size + css (inputDim cfg) cfg.conv_size
       else 0)
    ∧ (cfg.use_short_conv = false →
        ∀ r, state_size { cfg with expand_ratio := r } css = cfg.hidden_size)
    ∧ inputDim cfg = cfg.hidden_size * cfg.expand_ratio := by
  refine ⟨rfl, ?_, rfl⟩
  intro h r
  simp [state_size, h]

/-- Witness for C10: a layer with hidden size 7, no short convolution, and
expand ratio overridden to 5 still reports state size 7, while its actual
recurrent state has `7 * 5 = 35` channels. -/
theorem state_size_ignores_expand_ratio_witness :
    state_size ⟨"chunk", 7, 5, false, 4, 0⟩ (fun a b => a * b) = 7
    ∧ inputDim ⟨"chunk", 7, 5, false, 4, 0⟩ = 7 * 5 :=
  ⟨(state_size_ignores_expand_ratio ⟨"chunk", 7, 2, false, 4, 0⟩ (fun a b => a * b)).2.1
      rfl 5,
   (state_size_ignores_expand_ratio ⟨"chunk", 7, 5, false, 4, 0⟩ (fun a b => a * b)).2.2⟩

/-- C7: a forward call with an attention mask that is not exactly 2-D fails
fast with the precondition-violation message of lines 90-94, before any
computation: no recurrence engine runs and the externally owned cache object
is returned exactly as supplied. -/
theorem invalid_mask_fails_fast (ext : Externals) (cfg : Config) (training : Bool)
    (hs m : Tensor) (pkv : Option Cache) (uc : Bool) (lb : Option Tensor)
    (cu : Option (List ℕ)) (hm : m.shape.length ≠ 2) :
    forward ext cfg training hs (some m) pkv uc lb cu =
      ⟨Except.error maskAssertMsg, pkv, none⟩ := by
  simp [forward, hm]

/-- Witness for C7: a 3-D mask of shape `[1, 1, 1]` on an otherwise valid
call with a cache supplied; the call fails with the assertion message and the
cache comes back as it went in. -/
theorem invalid_mask_fails_fast_witness :
    forward extTriv cfgF false hs123 (some ⟨[1, 1, 1], fun _ => 0⟩)
        (some ⟨[], []⟩) false none none =
      ⟨Except.error maskAssertMsg, some ⟨[], []⟩, none⟩ :=
  invalid_mask_fails_fast extTriv cfgF false hs123 ⟨[1, 1, 1], fun _ => 0⟩
    (some ⟨[], []⟩) false none none (by decide)

/-- C8: the cache write of lines 158-164 is guarded by the presence of the
externally owned cache object: a forward call in which no cache is supplied
(incremental mode not requested) performs no cache write and returns no
cache, on every control path. -/
theorem no_cache_write_without_cache (ext : Externals) (cfg : Config)
    (training : Bool) (hs : Tensor) (am : Option Tensor) (uc : Bool)
    (lb : Option Tensor) (cu : Option (List ℕ)) :
    (forward ext cfg training hs am none uc lb cu).cache = none := by
  have hbody : (forwardBody ext cfg training hs am none uc lb cu).cache = none := by
    simp only [forwardBody, finishForward]
    split
    · split
      · rfl
      · simp
    · split
      · simp
      · rfl
  cases am with
  | none => exact hbody
  | some m =>
      by_cases h : m.shape.length = 2
      · simpa [forward, h] using hbody
      · simp [forward, h]

/-- C3: when the resolved execution mode is `chunk` and segment boundaries
(`cu_seqlens`) are supplied, and the mask precondition holds, the forward
call fails fast with the explicit not-supported error of lines 139-140: no
recurrence engine runs (no silent fallback) and the cache object is returned
exactly as supplied, unwritten. -/
theorem chunk_with_cu_seqlens_fails_fast (ext : Externals) (cfg : Config)
    (training : Bool) (hs : Tensor) (am : Option Tensor) (pkv : Option Cache)
    (uc : Bool) (lb : Option Tensor) (c : List ℕ)
    (hm : ∀ m, am = some m → m.shape.length = 2)
    (hmode : selectMode cfg.mode training (hs.shape.getD 1 0) = "chunk") :
    forward ext cfg training hs am pkv uc lb (some c) =
      ⟨Except.error "Chunk mode does not support variable-length sequences.",
       pkv, none⟩ := by
  have hbody : forwardBody ext cfg training hs am pkv uc lb (some c) =
      ⟨Except.error "Chunk mode does not support variable-length sequences.",
       pkv, none⟩ := by
    simp only [forwardBody]
    rw [hmode, if_pos (rfl : ("chunk" : String) = "chunk"),
      if_pos (by simp : (some c).isSome = true)]
  cases am with
  | none => exact hbody
  | some m =>
      have h2 := hm m rfl
      simp only [forward]
      rw [if_pos h2]
      exact hbody

/-- Witness for C3: a `chunk`-configured layer in training mode with
`cu_seqlens = [0, 2]` supplied and no mask; the call fails with the
not-supported error and the (absent) cache is untouched. -/
theorem chunk_with_cu_seqlens_fails_fast_witness :
    forward extTriv cfgC true hs123 none none false none (some [0, 2]) =
      ⟨Except.error "Chunk mode does not support variable-length sequences.",
       none, none⟩ :=
  chunk_with_cu_seqlens_fails_fast extTriv cfgC true hs123 none none false none
    [0, 2] (by intro m h; cases h) (by decide)

/-- C9: for every execution-strategy selector other than `chunk` and
`fused_recurrent`, construction fails fast with the "Not supported mode"
assertion of line 51; and a forward call whose resolved mode is such a
selector fails fast with the same message (lines 155-156), running no engine
and leaving the cache object exactly as supplied. -/
theorem unsupported_mode_fails_fast (mode : String) (hidden_size expand_ratio : ℕ)
    (use_short_conv : Bool) (conv_size layer_idx : ℕ)
    (hmode : mode ≠ "chunk" ∧ mode ≠ "fused_recurrent") :
    initHGRN mode hidden_size expand_ratio use_short_conv conv_size layer_idx =
      Except.error ("Not supported mode `" ++ mode ++ "`.")
    ∧ ∀ (ext : Externals) (cfg : Config) (training : Bool) (hs : Tensor)
        (am : Option Tensor) (pkv : Option Cache) (uc : Bool) (lb : Option Tensor)
        (cu : Option (List ℕ)),
        (∀ m, am = some m → m.shape.length = 2) →
        selectMode cfg.mode training (hs.shape.getD 1 0) = mode →
        forward ext cfg training hs am pkv uc lb cu =
          ⟨Except.error ("Not supported mode `" ++ mode ++ "`."), pkv, none⟩ := by
  obtain ⟨h1, h2⟩ := hmode
  constructor
  · have : ¬(mode = "chunk" ∨ mode = "fused_recurrent") := by
      rintro (h | h)
      · exact h1 h
      · exact h2 h
    simp [initHGRN, this]
  · intro ext cfg training hs am pkv uc lb cu hm hsel
    have hbody : forwardBody ext cfg training hs am pkv uc lb cu =
        ⟨Except.error ("Not supported mode `" ++ mode ++ "`."), pkv, none⟩ := by
      simp only [forwardBody]
      rw [hsel, if_neg h1, if_neg h2]
    cases am with
    | none => exact hbody
    | some m =>
        have hm2 := hm m rfl
        simp only [forward]
        rw [if_pos hm2]
        exact hbody

/-- Witness for C9: the selector "parallel" is rejected both at construction
and at dispatch (on a training-mode call where the configured mode is used). -/
theorem unsupported_mode_fails_fast_witness :
    initHGRN "parallel" 3 1 false 4 0 =
      Except.error ("Not supported mode `" ++ "parallel" ++ "`.")
    ∧ forward extTriv ⟨"parallel", 3, 1, false, 4, 0⟩ true hs123 none none false
        none none =
      ⟨Except.error ("Not supported mode `" ++ "parallel" ++ "`."), none, none⟩ :=
  ⟨(unsupported_mode_fails_fast "parallel" 3 1 false 4 0 ⟨by decide, by decide⟩).1,
   (unsupported_mode_fails_fast "parallel" 3 1 false 4 0 ⟨by decide, by decide⟩).2
     extTriv ⟨"parallel", 3, 1, false, 4, 0⟩ true hs123 none none false none none
     (by intro m h; cases h) (by decide)⟩

/-- C5 counterexample: on a forward call with a fully padded mask, the tensor
fed to the recurrence engine is 0 at index `[0,0,0]`, while
`swiglu(i_raw, 1 - exp f)` at that index is nonzero — so the input fed to the
engine does not equal `swiglu(i_raw, 1 - exp f)` on every call. -/
theorem effective_input_claim_counterexample :
    (forward extTriv cfgF false hs123 (some mask0) none false none none).engine.map
        (fun e => e.x.data [0, 0, 0]) = some 0
    ∧ swiglu
        ((convBranch extTriv cfgF hs123 (some mask0) (lastStateOf none cfgF) false
            none).1.1.data [0, 0, 0])
        (1 - Real.exp ((composedLogDecay none cfgF.layer_idx
            (convBranch extTriv cfgF hs123 (some mask0) (lastStateOf none cfgF) false
              none).2.1).data [0, 0, 0])) ≠ 0 := by
  constructor
  · simp [forward, forwardBody, finishForward, selectMode, cfgF, hs123, mask0,
      extTriv, convBranch, lastStateOf, applyPadMask, sliceLastTime, effectiveInput]
  · show swiglu 1 (1 - Real.exp (logsigmoid 0)) ≠ 0
    rw [exp_logsigmoid]
    have h0 : sigmoid 0 = 1 / 2 := by
      unfold sigmoid
      rw [neg_zero, Real.exp_zero]
      norm_num
    rw [h0]
    unfold swiglu
    have h1 := sigmoid_pos 1
    have h2 : (0 : ℝ) < 1 * sigmoid 1 * (1 - 1 / 2) := by nlinarith
    exact ne_of_gt h2

/-- C5 (amended): for every forward call in which no padding mask is
supplied (and the dispatch succeeds), the tensor fed to the recurrence engine
is exactly the effective input, which elementwise equals
`swiglu(i_raw, 1 - exp f)` where `i_raw` is the (optionally convolved)
input-branch projection and `f` the composed log-decay; with a mask, the
engine instead receives the mask-multiplied effective input. -/
theorem effective_input_is_swiglu (ext : Externals) (cfg : Config)
    (training : Bool) (hs : Tensor) (pkv : Option Cache) (uc : Bool)
    (lb : Option Tensor) (cu : Option (List ℕ)) (idx : List ℕ)
    (hmode : selectMode cfg.mode training (hs.shape.getD 1 0) = "fused_recurrent"
      ∨ (selectMode cfg.mode training (hs.shape.getD 1 0) = "chunk" ∧ cu = none)) :
    (forward ext cfg training hs none pkv uc lb cu).engine.map (fun e => e.x)
      = some (effectiveInput
          (convBranch ext cfg hs none (lastStateOf pkv cfg) uc cu).1.1
          (composedLogDecay lb cfg.layer_idx
            (convBranch ext cfg hs none (lastStateOf pkv cfg) uc cu).2.1))
    ∧ (effectiveInput
          (convBranch ext cfg hs none (lastStateOf pkv cfg) uc cu).1.1
          (composedLogDecay lb cfg.layer_idx
            (convBranch ext cfg hs none (lastStateOf pkv cfg) uc cu).2.1)).data idx
      = swiglu ((convBranch ext cfg hs none (lastStateOf pkv cfg) uc cu).1.1.data idx)
          (1 - Real.exp ((composedLogDecay lb cfg.layer_idx
              (convBranch ext cfg hs none (lastStateOf pkv cfg) uc cu).2.1).data idx)) := by
  refine ⟨?_, rfl⟩
  rcases hmode with h | ⟨h, hcu⟩
  · simp only [forward, forwardBody]
    rw [h, if_neg (by decide : ¬("fused_recurrent" : String) = "chunk"),
      if_pos (rfl : ("fused_recurrent" : String) = "fused_recurrent")]
    rfl
  · subst hcu
    simp only [forward, forwardBody]
    rw [h, if_pos (rfl : ("chunk" : String) = "chunk"),
      if_neg (by simp : ¬(none : Option (List ℕ)).isSome = true)]
    rfl

/-- Witness for C5 (amended): a concrete mask-free `fused_recurrent` call;
the engine input at index `[0,0,0]` equals `swiglu 1 (1 - exp (logsigmoid 0))`. -/
theorem effective_input_is_swiglu_witness :
    (forward extTriv cfgF false hs123 none none false none none).engine.map
        (fun e => e.x)
      = some (effectiveInput
          (convBranch extTriv cfgF hs123 none (lastStateOf none cfgF) false none).1.1
          (composedLogDecay none cfgF.layer_idx
            (convBranch extTriv cfgF hs123 none (lastStateOf none cfgF) false
              none).2.1))
    ∧ (effectiveInput
          (convBranch extTriv cfgF hs123 none (lastStateOf none cfgF) false none).1.1
          (composedLogDecay none cfgF.layer_idx
            (convBranch extTriv cfgF hs123 none (lastStateOf none cfgF) false
              none).2.1)).data [0, 0, 0]
      = swiglu 1 (1 - Real.exp (logsigmoid 0)) :=
  effective_input_is_swiglu extTriv cfgF false hs123 none false none none
    [0, 0, 0] (Or.inl (by decide))

/-- C6: for every forward call with a (valid, 2-D) padding mask in which the
dispatch succeeds, the tensor fed to the recurrence engine is the effective
input multiplied elementwise by the mask trimmed to the trailing time window
(`applyPadMask`, line 135), while the decay tensor fed to the engine is the
composed log-decay with no mask applied. -/
theorem padding_masks_input_not_decay (ext : Externals) (cfg : Config)
    (training : Bool) (hs m : Tensor) (pkv : Option Cache) (uc : Bool)
    (lb : Option Tensor) (cu : Option (List ℕ))
    (hm2 : m.shape.length = 2)
    (hmode : selectMode cfg.mode training (hs.shape.getD 1 0) = "fused_recurrent"
      ∨ (selectMode cfg.mode training (hs.shape.getD 1 0) = "chunk" ∧ cu = none)) :
    (forward ext cfg training hs (some m) pkv uc lb cu).engine.map (fun e => e.x)
      = some (applyPadMask
          (effectiveInput
            (convBranch ext cfg hs (some m) (lastStateOf pkv cfg) uc cu).1.1
            (composedLogDecay lb cfg.layer_idx
              (convBranch ext cfg hs (some m) (lastStateOf pkv cfg) uc cu).2.1))
          m)
    ∧ (forward ext cfg training hs (some m) pkv uc lb cu).engine.map (fun e => e.g)
      = some (composedLogDecay lb cfg.layer_idx
          (convBranch ext cfg hs (some m) (lastStateOf pkv cfg) uc cu).2.1) := by
  rcases hmode with h | ⟨h, hcu⟩
  · simp only [forward]
    rw [if_pos hm2]
    simp only [forwardBody]
    rw [h, if_neg (by decide : ¬("fused_recurrent" : String) = "chunk"),
      if_pos (rfl : ("fused_recurrent" : String) = "fused_recurrent")]
    exact ⟨rfl, rfl⟩
  · subst hcu
    simp only [forward]
    rw [if_pos hm2]
    simp only [forwardBody]
    rw [h, if_pos (rfl : ("chunk" : String) = "chunk"),
      if_neg (by simp : ¬(none : Option (List ℕ)).isSome = true)]
    exact ⟨rfl, rfl⟩

/-- Witness for C6: a concrete `fused_recurrent` call with an all-zero 2-D
mask; the engine receives the mask-multiplied effective input and the
unmasked composed log-decay. -/
theorem padding_masks_input_not_decay_witness :
    (forward extTriv cfgF false hs123 (some mask0) none false none none).engine.map
        (fun e => e.x)
      = some (applyPadMask
          (effectiveInput
            (convBranch extTriv cfgF hs123 (some mask0) (lastStateOf none cfgF)
              false none).1.1
            (composedLogDecay none cfgF.layer_idx
              (convBranch extTriv cfgF hs123 (some mask0) (lastStateOf none cfgF)
                false none).2.1))
          mask0)
    ∧ (forward extTriv cfgF false hs123 (some mask0) none false none none).engine.map
        (fun e => e.g)
      = some (composedLogDecay none cfgF.layer_idx
          (convBranch extTriv cfgF hs123 (some mask0) (lastStateOf none cfgF)
            false none).2.1) :=
  padding_masks_input_not_decay extTriv cfgF false hs123 mask0 none false none
    none (by decide) (Or.inl (by decide))

/-- C1: a forward call on a batch of 1 sequence of 2 time steps over hidden
size 3 (expand ratio 1) with a cache supplied records `offset = i.shape[2] = 3`
— the channel dimension of the effective input — although the number of time
steps processed is `hidden_states.shape[1] = 2`. The `offset` argument of the
cache update (line 163) is the channel count, not the consumed length the
cache contract expects. -/
theorem cache_offset_records_channel_dim :
    ((forward extTriv cfgF false hs123 none (some ⟨[], []⟩) false none
        none).cache.map (fun c => c.offsets)) = some [(0, 3)]
    ∧ hs123.shape.getD 1 0 = 2 ∧ (3 : ℕ) ≠ 2 := by
  refine ⟨rfl, rfl, by decide⟩

end HGRN
